import Mathlib

/-!
Shallow embedding of the session state engine in src/main.py
(conversational intake agent): fact merging, progress estimation,
completion detection, and the per-turn chat orchestrator with its
storage layer, together with theorems settling the spec claims.
-/

/-- One transcript turn: role is "user" or "assistant". -/
structure Turn where
  role : String
  content : String
deriving DecidableEq, Repr

/-- The profile mapping, modelled as an insertion-ordered association
list from fact-key to fact-value, matching an insertion-ordered dict
of strings. -/
abbrev Profile := List (String × String)

/-- Dict lookup: first binding of the key, if any. -/
def dictGet (p : Profile) (k : String) : Option String :=
  match p with
  | [] => none
  | (k', v) :: rest => if k' = k then some v else dictGet rest k

/-- Dict assignment: replace the value at an existing key in place,
else append the new binding at the end (insertion order). -/
def dictSet (p : Profile) (k v : String) : Profile :=
  match p with
  | [] => [(k, v)]
  | (k', v') :: rest => if k' = k then (k, v) :: rest else (k', v') :: dictSet rest k v

/-- ASCII whitespace, as stripped by str.strip(). -/
def isSpaceChar (c : Char) : Bool :=
  c == ' ' || c == '\t' || c == '\n' || c == '\r' || c == '\x0B' || c == '\x0C'

/-- Python str.strip(): drop leading and trailing whitespace. -/
def pyStrip (s : String) : String :=
  String.mk (((s.data.dropWhile isSpaceChar).reverse.dropWhile isSpaceChar).reverse)

/-- Python str.lower() on ASCII letters. -/
def pyLower (s : String) : String :=
  String.mk (s.data.map Char.toLower)

/-- Dynamic values as they arrive from the extraction service after
JSON decoding: strings, integers, booleans, null, arrays.  Nested
objects are outside the model; they behave like any other truthy
non-string value in the merge. -/
inductive JVal where
  | str (s : String)
  | int (n : Int)
  | bool (b : Bool)
  | null
  | list (l : List JVal)

/-- Python truthiness of a decoded JSON value: empty string, zero,
False, None and the empty list are falsy. -/
def pyTruthy : JVal → Bool
  | .str s => !(s == "")
  | .int n => !(n == 0)
  | .bool b => b
  | .null => false
  | .list l => !l.isEmpty

mutual

/-- Python str() of a decoded JSON value. -/
def pyStr : JVal → String
  | .str s => s
  | .int n => toString n
  | .bool b => if b then "True" else "False"
  | .null => "None"
  | .list l => "[" ++ pyReprList l ++ "]"

/-- Python repr() of a decoded JSON value, used for list elements. -/
def pyRepr : JVal → String
  | .str s => "'" ++ s ++ "'"
  | .int n => toString n
  | .bool b => if b then "True" else "False"
  | .null => "None"
  | .list l => "[" ++ pyReprList l ++ "]"

/-- Comma-separated reprs of list elements. -/
def pyReprList : List JVal → String
  | [] => ""
  | [v] => pyRepr v
  | v :: rest => pyRepr v ++ ", " ++ pyReprList rest

end

/-- The fixed sentinel set meaning "no information"
(src/main.py lines 264-270). -/
def sentinels : List String := ["null", "none", "", "n/a", "unknown"]

/-- The merge guard on one candidate pair: the value must be truthy
and its trimmed, lower-cased string form must not be a sentinel
(src/main.py line 264). -/
def passesFilter (v : JVal) : Bool :=
  pyTruthy v && !(sentinels.contains (pyLower (pyStrip (pyStr v))))

/-- Fold one candidate key/value pair into the profile
(src/main.py lines 263-276): reject sentinels and falsy values,
trim the value, insert if the key is absent or the stored value is
empty, overwrite if strictly longer, else keep the old value. -/
def mergePair (profile : Profile) (k : String) (v : JVal) : Profile :=
  if passesFilter v then
    let cleanV := pyStrip (pyStr v)
    let current := (dictGet profile k).getD ""
    if current = "" || current.length < cleanV.length then
      dictSet profile k cleanV
    else profile
  else profile

/-- Fold every extracted candidate pair into the profile, in order. -/
def mergeFacts (profile : Profile) (cands : List (String × JVal)) : Profile :=
  cands.foldl (fun p kv => mergePair p kv.1 kv.2) profile

/-- Progress estimator (src/main.py lines 278-279):
min(100, int((key_count / 18) * 100)) with exact arithmetic. -/
def progress (keyCount : Nat) : Nat :=
  min 100 (keyCount * 100 / 18)

/-- Whether pat is a prefix of s (character lists). -/
def startsWithList (pat s : List Char) : Bool :=
  match pat, s with
  | [], _ => true
  | _ :: _, [] => false
  | p :: ps, c :: cs => p == c && startsWithList ps cs

/-- Whether pat occurs as a contiguous sublist of s. -/
def containsList (pat : List Char) : List Char → Bool
  | [] => startsWithList pat []
  | c :: cs => startsWithList pat (c :: cs) || containsList pat cs

/-- Python substring containment: pat in s. -/
def strContainsSub (s pat : String) : Bool :=
  containsList pat.data s.data

/-- The fixed wrap-up signal phrases scanned for in the generated
reply (src/main.py lines 687-703). -/
def stopSignals : List String :=
  [ "i think i have a good picture now"
  , "i think i have a good sense"
  , "i feel like i understand you well"
  , "i've got a solid sense of where you're at"
  , "ready to talk about a plan"
  , "ready to talk about next steps"
  , "think we have enough to start"
  , "got a good understanding now"
  , "i think that's all i need"
  , "we've covered the main things"
  , "ready to move forward"
  , "have a good sense of your background"
  , "ready to discuss"
  , "i think we're good to go"
  , "i have a pretty complete picture"
  ]

/-- The fixed first-message greeting (src/main.py line 141). -/
def greeting : String :=
  "Hey, what's up? Tell me a bit about yourself to get started."

/-- The fixed fallback apology utterance (src/main.py lines 683, 731). -/
def apology : String :=
  "Sorry, something went wrong. Can you say that again?"

/-- One persisted session record (table sessions, src/main.py 29-49). -/
structure Session where
  session_id : String
  chat_history : List Turn
  profile_data : Profile
  is_complete : Bool
deriving DecidableEq, Repr

/-- The durable store: ordered rows keyed by session_id. -/
abbrev Store := List (String × Session)

/-- Row lookup by primary key. -/
def storeGet (store : Store) (sid : String) : Option Session :=
  match store with
  | [] => none
  | (k, s) :: rest => if k = sid then some s else storeGet rest sid

/-- UPDATE sessions SET chat_history, profile_data, is_complete
WHERE session_id = sid: a no-op when the row is absent
(src/main.py lines 106-128). -/
def storeUpdate (store : Store) (sid : String) (profile : Profile)
    (hist : List Turn) (complete : Bool) : Store :=
  match store with
  | [] => []
  | (k, s) :: rest =>
    if k = sid then
      (k, Session.mk s.session_id hist profile complete)
        :: storeUpdate rest sid profile hist complete
    else (k, s) :: storeUpdate rest sid profile hist complete

/-- A freshly inserted session row: empty transcript, empty profile,
is_complete defaulting to 0. -/
def emptySession (sid : String) : Session :=
  Session.mk sid [] [] false

/-- The only fault kind the storage layer raises in the model. -/
inductive Fault where
  | storage
deriving DecidableEq, Repr

/-- get_session (src/main.py lines 76-103): return the stored row, or
insert-and-return an empty session when the id is absent.  The fault
flag injects an underlying storage error. -/
def get_session (fault : Bool) (store : Store) (sid : String) :
    Except Fault (Session × Store) :=
  if fault then .error .storage
  else
    match storeGet store sid with
    | some s => .ok (s, store)
    | none => .ok (emptySession sid, store ++ [(sid, emptySession sid)])

/-- save_session (src/main.py lines 106-128): full overwrite of the
mutable fields via UPDATE.  The fault flag injects an underlying
storage error. -/
def save_session (fault : Bool) (store : Store) (sid : String)
    (profile : Profile) (hist : List Turn) (complete : Bool) :
    Except Fault Store :=
  if fault then .error .storage
  else .ok (storeUpdate store sid profile hist complete)

/-- Request body of POST /chat. -/
structure ChatRequest where
  session_id : String
  message : String
  is_first_message : Bool
deriving DecidableEq, Repr

/-- Response body of POST /chat. -/
structure ChatResponse where
  question : String
  is_complete : Bool
  progress : Nat
  session_id : String
deriving DecidableEq, Repr

/-- The per-turn environment: injected storage faults and the two
external services.  Extraction error covers both a service fault and
unparseable output (both yield empty facts); generation error covers
a service fault (yielding the apology). -/
structure Env where
  loadFault : Bool
  saveFault : Bool
  extraction : Except Unit (List (String × JVal))
  generation : Except Unit String

/-- The turn pipeline inside the try block of chat (src/main.py
lines 137-726), returning either a response or the fault that
escaped, together with the store as mutated so far. -/
def chatPipeline (env : Env) (store : Store) (req : ChatRequest) :
    Except Fault ChatResponse × Store :=
  match get_session env.loadFault store req.session_id with
  | .error f => (.error f, store)
  | .ok (session, store1) =>
    if req.is_first_message then
      let hist := session.chat_history ++ [Turn.mk "assistant" greeting]
      match save_session env.saveFault store1 req.session_id
          session.profile_data hist false with
      | .error f => (.error f, store1)
      | .ok store2 =>
        (.ok (ChatResponse.mk greeting false 0 req.session_id), store2)
    else
      let hist1 :=
        if pyStrip req.message = "" then session.chat_history
        else session.chat_history ++ [Turn.mk "user" req.message]
      let extracted :=
        if pyStrip req.message = "" then []
        else match env.extraction with
          | .ok l => l
          | .error _ => []
      let profile := mergeFacts session.profile_data extracted
      let prog := progress profile.length
      let aiReply :=
        match env.generation with
        | .ok t => pyStrip t
        | .error _ => apology
      let isComplete :=
        if stopSignals.any (fun p => strContainsSub (pyLower aiReply) p) then true
        else session.is_complete
      let hist2 := hist1 ++ [Turn.mk "assistant" aiReply]
      match save_session env.saveFault store1 req.session_id
          profile hist2 isComplete with
      | .error f => (.error f, store1)
      | .ok store2 =>
        (.ok (ChatResponse.mk aiReply isComplete prog req.session_id), store2)

/-- The fallback response built in the top-level except handler
(src/main.py lines 728-735). -/
def fallbackResponse (sid : String) : ChatResponse :=
  ChatResponse.mk apology false 0 sid

/-- POST /chat (src/main.py lines 131-735): run the pipeline; any
fault that escapes it is converted into the fallback response. -/
def chat (env : Env) (store : Store) (req : ChatRequest) :
    ChatResponse × Store :=
  match chatPipeline env store req with
  | (.ok resp, st) => (resp, st)
  | (.error _, st) => (fallbackResponse req.session_id, st)

/-- GET /session/sid (src/main.py lines 743-745): returns
get_session, creating the session when absent. -/
def get_session_data (fault : Bool) (store : Store) (sid : String) :
    Except Fault (Session × Store) :=
  get_session fault store sid

/-- DELETE /session/sid (src/main.py lines 763-770): remove the row
with the given id; idempotent. -/
def delete_session (store : Store) (sid : String) : Store :=
  match store with
  | [] => []
  | (k, s) :: rest =>
    if k = sid then delete_session rest sid
    else (k, s) :: delete_session rest sid

/-- init_db (src/main.py lines 29-49), run at every process startup:
DROP TABLE IF EXISTS sessions followed by CREATE TABLE, so every
existing row is destroyed. -/
def init_db (_store : Store) : Store := []

/-! ## Helper lemmas -/

/-- Reading back the key just written returns the new value. -/
theorem dictGet_dictSet_self (p : Profile) (k v : String) :
    dictGet (dictSet p k v) k = some v := by
  induction p with
  | nil => simp [dictSet, dictGet]
  | cons hd tl ih =>
    obtain ⟨k', v'⟩ := hd
    by_cases h : k' = k
    · simp [dictSet, dictGet, h]
    · simp [dictSet, dictGet, h, ih]

/-- A string of length zero is the empty string. -/
theorem eq_empty_of_length_zero (s : String) (h : s.length = 0) : s = "" :=
  String.ext (List.eq_nil_of_length_eq_zero h)

/-- Lower-casing the empty string gives the empty string. -/
theorem pyLower_empty_iff (s : String) : pyLower s = "" ↔ s = "" := by
  constructor
  · intro h
    have h2 := congrArg String.data h
    simp [pyLower] at h2
    exact String.ext h2
  · intro h
    subst h
    rfl

/-- A candidate that passes the merge filter has a nonempty trimmed
string form. -/
theorem stripped_ne_empty_of_passes (v : JVal) (h : passesFilter v = true) :
    pyStrip (pyStr v) ≠ "" := by
  intro hempty
  have h2 : pyLower (pyStrip (pyStr v)) = "" := by
    rw [hempty]
    rfl
  rw [passesFilter, h2] at h
  simp at h
  exact absurd (by decide : ("" : String) ∈ sentinels) h.2

/-- A candidate that passes the merge filter has a trimmed string
form of positive length. -/
theorem stripped_length_pos_of_passes (v : JVal) (h : passesFilter v = true) :
    0 < (pyStrip (pyStr v)).length := by
  rcases Nat.eq_zero_or_pos (pyStrip (pyStr v)).length with h0 | h0
  · exact absurd (eq_empty_of_length_zero _ h0) (stripped_ne_empty_of_passes v h)
  · exact h0

/-! ## C1, C3, C9: the Fact Merger -/

/-- C1: for a key already stored with value old and a candidate value
passing the sentinel filter, the merge stores the trimmed candidate
exactly when it is strictly longer than old, and keeps old otherwise;
in particular candidate "Lahore" replaces stored "LHR" while
candidates "LHR" and "X" leave the profile unchanged. -/
theorem merge_overwrite_only_if_longer (P : Profile) (k old : String) (v : JVal)
    (hk : dictGet P k = some old) (hv : passesFilter v = true) :
    dictGet (mergePair P k v) k =
      some (if old.length < (pyStrip (pyStr v)).length
            then pyStrip (pyStr v) else old) ∧
    mergePair [("city", "LHR")] "city" (JVal.str "Lahore") = [("city", "Lahore")] ∧
    mergePair [("city", "LHR")] "city" (JVal.str "LHR") = [("city", "LHR")] ∧
    mergePair [("city", "LHR")] "city" (JVal.str "X") = [("city", "LHR")] := by
  refine ⟨?_, by decide, by decide, by decide⟩
  by_cases hlt : old.length < (pyStrip (pyStr v)).length
  · simp [mergePair, hv, hk, hlt, dictGet_dictSet_self]
  · have hold : old ≠ "" := by
      intro h0
      rw [h0] at hlt
      exact hlt (stripped_length_pos_of_passes v hv)
    simp [mergePair, hv, hk, hlt, hold]

/-- Witness for C1 at the profile of the spec example. -/
theorem merge_overwrite_only_if_longer_witness :
    dictGet (mergePair [("city", "LHR")] "city" (JVal.str "Lahore")) "city"
      = some (if ("LHR" : String).length < (pyStrip (pyStr (JVal.str "Lahore"))).length
              then pyStrip (pyStr (JVal.str "Lahore")) else "LHR") :=
  (merge_overwrite_only_if_longer [("city", "LHR")] "city" "LHR"
    (JVal.str "Lahore") (by decide) (by decide)).1

/-- C3: a candidate whose trimmed, lower-cased string form is empty
or a sentinel never enters the profile: the merge leaves the profile
unchanged, whatever the casing or surrounding whitespace. -/
theorem sentinel_rejection (P : Profile) (k : String) (v : JVal)
    (h : sentinels.contains (pyLower (pyStrip (pyStr v))) = true) :
    mergePair P k v = P := by
  have hf : passesFilter v = false := by
    rw [passesFilter, h]
    simp
  simp [mergePair, hf]

/-- Witness for C3 at candidate value "  UNKNOWN  ". -/
theorem sentinel_rejection_witness :
    mergePair [("city", "LHR")] "student_name" (JVal.str "  UNKNOWN  ")
      = [("city", "LHR")] :=
  sentinel_rejection [("city", "LHR")] "student_name"
    (JVal.str "  UNKNOWN  ") (by decide)

/-- C9: a falsy candidate value (0, False, null, empty list, empty
string) is rejected by the truthiness test before the sentinel check,
so it never enters the profile even when its string form is not a
sentinel. -/
theorem falsy_value_rejected (P : Profile) (k : String) (v : JVal)
    (h : pyTruthy v = false) :
    mergePair P k v = P := by
  have hf : passesFilter v = false := by
    rw [passesFilter, h]
    rfl
  simp [mergePair, hf]

/-- Witness for C9 at the number 0, whose string form "0" is not in
the sentinel set. -/
theorem falsy_value_rejected_witness :
    sentinels.contains (pyLower (pyStrip (pyStr (JVal.int 0)))) = false ∧
    mergePair [("city", "LHR")] "count" (JVal.int 0) = [("city", "LHR")] :=
  ⟨by decide, falsy_value_rejected [("city", "LHR")] "count" (JVal.int 0) (by decide)⟩

/-! ## C4: the Progress Estimator -/

/-- C4: the computed progress equals the spec formula
floor(min(100, (key_count / 18) * 100)) with exact rational
arithmetic; it lies in [0, 100], is 0 on an empty profile, is 100
from 18 keys on, and is non-decreasing in the key count. -/
theorem progress_formula_props :
    (∀ n : Nat, progress n = Nat.floor (min (100 : ℚ) ((n : ℚ) / 18 * 100))) ∧
    (∀ n : Nat, progress n ≤ 100) ∧
    progress 0 = 0 ∧
    (∀ n : Nat, 18 ≤ n → progress n = 100) ∧
    (∀ m n : Nat, m ≤ n → progress m ≤ progress n) := by
  refine ⟨?_, ?_, by decide, ?_, ?_⟩
  · intro n
    have hcast : (n : ℚ) / 18 * 100 = ((n * 100 : ℕ) : ℚ) / ((18 : ℕ) : ℚ) := by
      push_cast
      ring
    rw [hcast]
    have h18 : (0 : ℚ) < ((18 : ℕ) : ℚ) := by norm_num
    rcases le_total (((n * 100 : ℕ) : ℚ) / ((18 : ℕ) : ℚ)) 100 with hle | hle
    · rw [min_eq_right hle, Nat.floor_div_eq_div]
      have hq : ((n * 100 : ℕ) : ℚ) ≤ 1800 := by
        have := (div_le_iff₀ h18).mp hle
        linarith
      have hnat : n * 100 ≤ 1800 := by exact_mod_cast hq
      have hdiv : n * 100 / 18 ≤ 100 :=
        le_trans (Nat.div_le_div_right hnat) (by norm_num)
      rw [progress, min_eq_right hdiv]
    · rw [min_eq_left hle]
      have hq : (1800 : ℚ) ≤ ((n * 100 : ℕ) : ℚ) := by
        have := (le_div_iff₀ h18).mp hle
        linarith
      have hnat : 1800 ≤ n * 100 := by exact_mod_cast hq
      have hdiv : 100 ≤ n * 100 / 18 :=
        le_trans (by norm_num) (Nat.div_le_div_right hnat)
      rw [progress, min_eq_left hdiv]
      norm_num
  · intro n
    exact min_le_left 100 (n * 100 / 18)
  · intro n hn
    have hdiv : 100 ≤ n * 100 / 18 :=
      le_trans (by norm_num : (100 : ℕ) ≤ 1800 / 18)
        (Nat.div_le_div_right (by omega))
    rw [progress, min_eq_left hdiv]
  · intro m n hmn
    exact min_le_min (le_refl 100)
      (Nat.div_le_div_right (Nat.mul_le_mul_right 100 hmn))

/-- Witness for C4: a full profile reaches 100, and three keys give
floor(300 / 18) = 16. -/
theorem progress_formula_props_witness :
    progress 20 = 100 ∧ progress 3 = 16 :=
  ⟨progress_formula_props.2.2.2.1 20 (by decide), by decide⟩

/-! ## Store lemmas -/

/-- Look-up after update: the row for the updated id has its mutable
fields overwritten, every other row is unchanged. -/
theorem storeGet_storeUpdate (store : Store) (sid sid' : String)
    (p : Profile) (h : List Turn) (c : Bool) :
    storeGet (storeUpdate store sid p h c) sid'
      = if sid' = sid
        then (storeGet store sid').map (fun s => Session.mk s.session_id h p c)
        else storeGet store sid' := by
  induction store with
  | nil => simp [storeUpdate, storeGet]
  | cons hd tl ih =>
    obtain ⟨k0, s0⟩ := hd
    by_cases h1 : k0 = sid
    · subst h1
      by_cases h2 : sid' = k0
      · subst h2
        simp [storeUpdate, storeGet]
      · have h2' : ¬(k0 = sid') := fun hh => h2 hh.symm
        simp [storeUpdate, storeGet, h2, h2', ih]
    · by_cases h2 : sid' = k0
      · subst h2
        simp [storeUpdate, storeGet, h1]
      · have h2' : ¬(k0 = sid') := fun hh => h2 hh.symm
        simp [storeUpdate, storeGet, h1, h2, h2', ih]

/-- Look-up distributes over store concatenation. -/
theorem storeGet_append (s1 s2 : Store) (sid : String) :
    storeGet (s1 ++ s2) sid = (storeGet s1 sid).or (storeGet s2 sid) := by
  induction s1 with
  | nil => simp [storeGet]
  | cons hd tl ih =>
    obtain ⟨k0, s0⟩ := hd
    by_cases h1 : k0 = sid
    · simp [storeGet, h1]
    · simp [storeGet, h1, ih]

/-- Look-up after deletion: the deleted id is gone, every other row
is unchanged. -/
theorem storeGet_delete (store : Store) (sid sid' : String) :
    storeGet (delete_session store sid') sid
      = if sid = sid' then none else storeGet store sid := by
  induction store with
  | nil => simp [delete_session, storeGet]
  | cons hd tl ih =>
    obtain ⟨k0, s0⟩ := hd
    simp only [delete_session] at ih ⊢
    by_cases h1 : k0 = sid'
    · subst h1
      by_cases h2 : sid = k0
      · subst h2
        simp [storeGet, ih]
      · have h2' : ¬(k0 = sid) := fun hh => h2 hh.symm
        simp [storeGet, h2, h2', ih]
    · by_cases h2 : sid = k0
      · subst h2
        have h1' : ¬(sid = sid') := h1
        simp [storeGet, h1, h1', ih]
      · have h2' : ¬(k0 = sid) := fun hh => h2 hh.symm
        simp [storeGet, h1, h2, h2', ih]

/-- A chat turn never removes a store row: every key present before
the turn is still present afterwards, whatever faults occur. -/
theorem chat_preserves_rows (env : Env) (store : Store) (req : ChatRequest)
    (sid : String) (h : (storeGet store sid).isSome = true) :
    (storeGet (chat env store req).2 sid).isSome = true := by
  obtain ⟨s0, hs0⟩ := Option.isSome_iff_exists.mp h
  have hins : (storeGet (store ++ [(req.session_id, emptySession req.session_id)]) sid).isSome
      = true := by
    rw [storeGet_append, hs0]
    rfl
  have hupd : ∀ (st : Store) (p : Profile) (hi : List Turn) (c : Bool),
      (storeGet st sid).isSome = true →
      (storeGet (storeUpdate st req.session_id p hi c) sid).isSome = true := by
    intro st p hi c hst
    rw [storeGet_storeUpdate]
    by_cases hq : sid = req.session_id
    · rw [if_pos hq, Option.isSome_map']
      exact hst
    · rwa [if_neg hq]
  by_cases hf : env.loadFault
  · simpa [chat, chatPipeline, get_session, hf] using h
  · rcases hx : storeGet store req.session_id with _ | s1
    · by_cases hfm : req.is_first_message
      · by_cases hsf : env.saveFault
        · simpa [chat, chatPipeline, get_session, save_session, hf, hx, hfm, hsf] using hins
        · simp only [chat, chatPipeline, get_session, save_session, hf, hx, hfm, hsf]
          simp only [Bool.false_eq_true, if_false, if_true]
          exact hupd _ _ _ _ hins
      · by_cases hsf : env.saveFault
        · simpa [chat, chatPipeline, get_session, save_session, hf, hx, hfm, hsf] using hins
        · simp only [chat, chatPipeline, get_session, save_session, hf, hx, hfm, hsf]
          simp only [Bool.false_eq_true, if_false, if_true]
          exact hupd _ _ _ _ hins
    · by_cases hfm : req.is_first_message
      · by_cases hsf : env.saveFault
        · simpa [chat, chatPipeline, get_session, save_session, hf, hx, hfm, hsf] using h
        · simp only [chat, chatPipeline, get_session, save_session, hf, hx, hfm, hsf]
          simp only [Bool.false_eq_true, if_false, if_true]
          exact hupd _ _ _ _ h
      · by_cases hsf : env.saveFault
        · simpa [chat, chatPipeline, get_session, save_session, hf, hx, hfm, hsf] using h
        · simp only [chat, chatPipeline, get_session, save_session, hf, hx, hfm, hsf]
          simp only [Bool.false_eq_true, if_false, if_true]
          exact hupd _ _ _ _ h

/-! ## C8: session lifecycle, C10: the side-effecting read -/

/-- C8 counterexample: init_db runs DROP TABLE IF EXISTS at every
process startup, so a session persisted before a restart (here one
with facts and complete=true) is destroyed by startup, not only by an
explicit delete. -/
theorem init_db_drops_sessions_counterexample :
    storeGet [("s1", Session.mk "s1" [] [("city", "Lahore")] true)] "s1"
      = some (Session.mk "s1" [] [("city", "Lahore")] true) ∧
    storeGet (init_db [("s1", Session.mk "s1" [] [("city", "Lahore")] true)]) "s1"
      = none := by
  constructor
  · simp [storeGet]
  · rfl

/-- C8 (amended): within one process lifetime a stored session is
removed only by an explicit delete of its id: a chat turn never
removes any row, the read endpoint never removes any row, and
deletion removes exactly the requested row; startup (init_db),
however, destroys every existing row, so records do not survive
restarts. -/
theorem explicit_delete_within_process (env : Env) (store : Store)
    (req : ChatRequest) (sid sid' : String)
    (h : (storeGet store sid).isSome = true) :
    (storeGet (chat env store req).2 sid).isSome = true ∧
    (∀ s st, get_session false store sid' = .ok (s, st) →
      (storeGet st sid).isSome = true) ∧
    (sid ≠ sid' → storeGet (delete_session store sid') sid = storeGet store sid) ∧
    storeGet (delete_session store sid) sid = none ∧
    storeGet (init_db store) sid = none := by
  obtain ⟨s0, hs0⟩ := Option.isSome_iff_exists.mp h
  refine ⟨chat_preserves_rows env store req sid h, ?_, ?_, ?_, rfl⟩
  · intro s st hget
    rw [get_session] at hget
    simp only [Bool.false_eq_true, if_false] at hget
    rcases hx : storeGet store sid' with _ | s1
    · rw [hx] at hget
      rw [Except.ok.injEq, Prod.mk.injEq] at hget
      obtain ⟨-, hst⟩ := hget
      subst hst
      rw [storeGet_append, hs0]
      rfl
    · rw [hx] at hget
      rw [Except.ok.injEq, Prod.mk.injEq] at hget
      obtain ⟨-, hst⟩ := hget
      subst hst
      exact h
  · intro hne
    rw [storeGet_delete, if_neg hne]
  · rw [storeGet_delete, if_pos rfl]

/-- Witness for C8 at a one-row store. -/
theorem explicit_delete_within_process_witness :
    (storeGet (chat (Env.mk false false (.ok []) (.ok "ok"))
        [("s1", emptySession "s1")] (ChatRequest.mk "s1" "hi" true)).2 "s1").isSome
      = true ∧
    (∀ s st, get_session false [("s1", emptySession "s1")] "s2" = .ok (s, st) →
      (storeGet st "s1").isSome = true) ∧
    ("s1" ≠ "s2" →
      storeGet (delete_session [("s1", emptySession "s1")] "s2") "s1"
        = storeGet [("s1", emptySession "s1")] "s1") ∧
    storeGet (delete_session [("s1", emptySession "s1")] "s1") "s1" = none ∧
    storeGet (init_db [("s1", emptySession "s1")]) "s1" = none :=
  explicit_delete_within_process (Env.mk false false (.ok []) (.ok "ok"))
    [("s1", emptySession "s1")] (ChatRequest.mk "s1" "hi" true) "s1" "s2" (by decide)

/-- C10: fetching an absent session via the read endpoint is a
side-effecting read: it creates, persists and returns a fresh empty
session (empty transcript, empty profile, complete=false) instead of
reporting absence. -/
theorem get_session_creates_when_absent (store : Store) (sid : String)
    (h : storeGet store sid = none) :
    get_session_data false store sid
      = .ok (emptySession sid, store ++ [(sid, emptySession sid)]) ∧
    storeGet (store ++ [(sid, emptySession sid)]) sid = some (emptySession sid) := by
  constructor
  · simp [get_session_data, get_session, h]
  · rw [storeGet_append, h]
    simp [storeGet]

/-- Witness for C10 at the empty store. -/
theorem get_session_creates_when_absent_witness :
    get_session_data false [] "s1"
      = .ok (emptySession "s1", [] ++ [("s1", emptySession "s1")]) ∧
    storeGet ([] ++ [("s1", emptySession "s1")]) "s1" = some (emptySession "s1") :=
  get_session_creates_when_absent [] "s1" rfl

/-! ## C6, C7: fault handling at the orchestrator boundary -/

/-- C6: whenever any fault escapes the per-turn pipeline, the chat
operation catches it at the top level and returns the well-formed
fallback response: the fixed apology utterance, complete=false,
progress=0, echoing the session id; the caller never sees an
unhandled fault. -/
theorem orchestrator_catch_all (env : Env) (store : Store) (req : ChatRequest)
    (f : Fault) (h : (chatPipeline env store req).1 = .error f) :
    (chat env store req).1 = ChatResponse.mk apology false 0 req.session_id := by
  rcases hp : chatPipeline env store req with ⟨r, st⟩
  rw [hp] at h
  have hr : r = Except.error f := h
  subst hr
  simp [chat, hp, fallbackResponse]

/-- Witness for C6 with a faulting load. -/
theorem orchestrator_catch_all_witness :
    (chat (Env.mk true false (.ok []) (.ok "ok")) []
        (ChatRequest.mk "s1" "hi" false)).1
      = ChatResponse.mk apology false 0 "s1" :=
  orchestrator_catch_all (Env.mk true false (.ok []) (.ok "ok")) []
    (ChatRequest.mk "s1" "hi" false) Fault.storage rfl

/-- C7 counterexample: with the underlying load operation faulting,
the chat operation returns the ordinary normal-shaped fallback
response (apology, complete=false, progress=0), not a failure
distinct from the normal response shape, contrary to the claim. -/
theorem storage_fault_swallowed_counterexample :
    chat (Env.mk true false (.ok []) (.ok "ok")) []
        (ChatRequest.mk "s1" "hi" false)
      = (ChatResponse.mk apology false 0 "s1", []) := rfl

/-- C7 (amended): a storage fault during the load or the save of a
chat turn is caught by the top-level handler and converted into the
normal fallback response, indistinguishable from a degraded normal
turn; it does not propagate to the caller as a distinct failure. -/
theorem storage_fault_gives_fallback (env : Env) (store : Store)
    (req : ChatRequest) (h : env.loadFault = true ∨ env.saveFault = true) :
    (chat env store req).1 = ChatResponse.mk apology false 0 req.session_id := by
  rcases h with hf | hf
  · simp [chat, chatPipeline, get_session, hf, fallbackResponse]
  · by_cases hl : env.loadFault
    · simp [chat, chatPipeline, get_session, hl, fallbackResponse]
    · rcases hx : storeGet store req.session_id with _ | s1
      · by_cases hfm : req.is_first_message
        · simp [chat, chatPipeline, get_session, save_session, hl, hx, hfm,
            hf, fallbackResponse]
        · simp [chat, chatPipeline, get_session, save_session, hl, hx, hfm,
            hf, fallbackResponse]
      · by_cases hfm : req.is_first_message
        · simp [chat, chatPipeline, get_session, save_session, hl, hx, hfm,
            hf, fallbackResponse]
        · simp [chat, chatPipeline, get_session, save_session, hl, hx, hfm,
            hf, fallbackResponse]

/-- Witness for C7 with a faulting save. -/
theorem storage_fault_gives_fallback_witness :
    (chat (Env.mk false true (.ok []) (.ok "ok")) []
        (ChatRequest.mk "s1" "hi" false)).1
      = ChatResponse.mk apology false 0 "s1" :=
  storage_fault_gives_fallback (Env.mk false true (.ok []) (.ok "ok")) []
    (ChatRequest.mk "s1" "hi" false) (Or.inr rfl)

/-! ## C5: the first-message short-circuit -/

/-- C5: a turn flagged as first message makes no extraction and no
generation call (its outcome is independent of both services),
appends exactly one assistant turn carrying the fixed greeting,
persists the session, and returns the greeting with progress=0 and
complete=false. -/
theorem first_message_short_circuit (env : Env) (store : Store)
    (req : ChatRequest) (h1 : req.is_first_message = true)
    (h2 : env.loadFault = false) (h3 : env.saveFault = false) :
    ∃ session store1,
      get_session false store req.session_id = .ok (session, store1) ∧
      chat env store req =
        (ChatResponse.mk greeting false 0 req.session_id,
         storeUpdate store1 req.session_id session.profile_data
           (session.chat_history ++ [Turn.mk "assistant" greeting]) false) ∧
      (∀ ex gen, chat (Env.mk env.loadFault env.saveFault ex gen) store req
          = chat env store req) := by
  rcases hx : storeGet store req.session_id with _ | s1
  · refine ⟨emptySession req.session_id,
      store ++ [(req.session_id, emptySession req.session_id)], ?_, ?_, ?_⟩
    · simp [get_session, hx]
    · simp [chat, chatPipeline, get_session, save_session, h1, h2, h3, hx]
    · intro ex gen
      simp [chat, chatPipeline, get_session, save_session, h1, h2, h3, hx]
  · refine ⟨s1, store, ?_, ?_, ?_⟩
    · simp [get_session, hx]
    · simp [chat, chatPipeline, get_session, save_session, h1, h2, h3, hx]
    · intro ex gen
      simp [chat, chatPipeline, get_session, save_session, h1, h2, h3, hx]

/-- Witness for C5 with both external services faulting: the turn
still succeeds identically, showing neither service is consulted. -/
theorem first_message_short_circuit_witness :
    ∃ session store1,
      get_session false ([] : Store) "s1" = .ok (session, store1) ∧
      chat (Env.mk false false (.error ()) (.error ())) []
          (ChatRequest.mk "s1" "hello" true) =
        (ChatResponse.mk greeting false 0 "s1",
         storeUpdate store1 "s1" session.profile_data
           (session.chat_history ++ [Turn.mk "assistant" greeting]) false) ∧
      (∀ ex gen, chat (Env.mk false false ex gen) []
            (ChatRequest.mk "s1" "hello" true)
          = chat (Env.mk false false (.error ()) (.error ())) []
              (ChatRequest.mk "s1" "hello" true)) :=
  first_message_short_circuit (Env.mk false false (.error ()) (.error ())) []
    (ChatRequest.mk "s1" "hello" true) rfl rfl rfl

/-! ## C2: completion monotonicity -/

/-- Normal form of a fault-free non-first-message turn. -/
theorem chatPipeline_nonfirst (env : Env) (store : Store) (req : ChatRequest)
    (s0 : Session) (h1 : req.is_first_message = false)
    (hl : env.loadFault = false) (hsf : env.saveFault = false)
    (hs0 : storeGet store req.session_id = some s0) :
    chatPipeline env store req =
      (let hist1 := if pyStrip req.message = "" then s0.chat_history
                    else s0.chat_history ++ [Turn.mk "user" req.message];
       let extracted := if pyStrip req.message = "" then []
                        else match env.extraction with
                          | .ok l => l
                          | .error _ => [];
       let profile := mergeFacts s0.profile_data extracted;
       let aiReply := match env.generation with
                      | .ok t => pyStrip t
                      | .error _ => apology;
       let isComplete := if stopSignals.any
             (fun p => strContainsSub (pyLower aiReply) p) then true
           else s0.is_complete;
       (.ok (ChatResponse.mk aiReply isComplete
              (progress profile.length) req.session_id),
        storeUpdate store req.session_id profile
          (hist1 ++ [Turn.mk "assistant" aiReply]) isComplete)) := by
  simp [chatPipeline, get_session, save_session, hl, hsf, h1, hs0]

/-- C2 counterexample: a session persisted with complete=true is
reset by a later turn flagged as first message: that turn persists
the record with complete=false (save_session is called without the
completion flag, which defaults to false) and also returns
complete=false. -/
theorem complete_reset_on_first_message_counterexample :
    (storeGet [("s1", Session.mk "s1" [] [("city", "Lahore")] true)] "s1").map
        Session.is_complete = some true ∧
    (storeGet (chat (Env.mk false false (.ok []) (.ok "ok"))
        [("s1", Session.mk "s1" [] [("city", "Lahore")] true)]
        (ChatRequest.mk "s1" "hi" true)).2 "s1").map Session.is_complete
      = some false ∧
    (chat (Env.mk false false (.ok []) (.ok "ok"))
        [("s1", Session.mk "s1" [] [("city", "Lahore")] true)]
        (ChatRequest.mk "s1" "hi" true)).1.is_complete = false :=
  ⟨rfl, rfl, rfl⟩

/-- C2 (amended): completion is monotone on every turn that is not
flagged as first message: once the stored record has complete=true,
such a turn leaves the persisted flag true whatever faults occur, and
a turn that completes normally also reports complete=true in its
response.  A turn flagged as first message, however, persists and
returns complete=false even for an already-complete session. -/
theorem complete_monotone_nonfirst (env : Env) (store : Store)
    (req : ChatRequest) (h1 : req.is_first_message = false)
    (hs : ∃ s, storeGet store req.session_id = some s ∧ s.is_complete = true) :
    (∃ s', storeGet (chat env store req).2 req.session_id = some s' ∧
      s'.is_complete = true) ∧
    (∀ resp st, chatPipeline env store req = (.ok resp, st) →
      resp.is_complete = true) := by
  obtain ⟨s0, hs0, hc0⟩ := hs
  by_cases hl : env.loadFault
  · constructor
    · refine ⟨s0, ?_, hc0⟩
      simp [chat, chatPipeline, get_session, hl, hs0]
    · intro resp st hp
      simp [chatPipeline, get_session, hl] at hp
  · by_cases hsf : env.saveFault
    · constructor
      · refine ⟨s0, ?_, hc0⟩
        simp [chat, chatPipeline, get_session, save_session, hl, hs0, h1, hsf]
      · intro resp st hp
        simp [chatPipeline, get_session, save_session, hl, hs0, h1, hsf] at hp
    · have hb : env.loadFault = false := by simpa using hl
      have hb2 : env.saveFault = false := by simpa using hsf
      have hpipe := chatPipeline_nonfirst env store req s0 h1 hb hb2 hs0
      have hcomp : (if stopSignals.any (fun p => strContainsSub
            (pyLower (match env.generation with
                      | .ok t => pyStrip t
                      | .error _ => apology)) p) then true
          else s0.is_complete) = true := by
        split
        · rfl
        · exact hc0
      simp only [hcomp] at hpipe
      constructor
      · refine ⟨Session.mk s0.session_id
          ((if pyStrip req.message = "" then s0.chat_history
            else s0.chat_history ++ [Turn.mk "user" req.message])
            ++ [Turn.mk "assistant"
                 (match env.generation with
                  | .ok t => pyStrip t
                  | .error _ => apology)])
          (mergeFacts s0.profile_data
            (if pyStrip req.message = "" then []
             else match env.extraction with
               | .ok l => l
               | .error _ => []))
          true, ?_, rfl⟩
        simp only [chat, hpipe]
        rw [storeGet_storeUpdate, if_pos rfl, hs0]
        rfl
      · intro resp st hp
        rw [hpipe] at hp
        simp only [Prod.mk.injEq, Except.ok.injEq] at hp
        obtain ⟨hresp, -⟩ := hp
        rw [← hresp]

/-- Witness for C2 on a complete one-row store and an ordinary
non-first-message turn. -/
theorem complete_monotone_nonfirst_witness :
    (∃ s', storeGet (chat (Env.mk false false (.ok []) (.ok "ok"))
        [("s1", Session.mk "s1" [] [] true)]
        (ChatRequest.mk "s1" "hi" false)).2 "s1" = some s' ∧
      s'.is_complete = true) ∧
    (∀ resp st, chatPipeline (Env.mk false false (.ok []) (.ok "ok"))
        [("s1", Session.mk "s1" [] [] true)]
        (ChatRequest.mk "s1" "hi" false) = (.ok resp, st) →
      resp.is_complete = true) :=
  complete_monotone_nonfirst (Env.mk false false (.ok []) (.ok "ok"))
    [("s1", Session.mk "s1" [] [] true)] (ChatRequest.mk "s1" "hi" false) rfl
    ⟨Session.mk "s1" [] [] true, rfl, rfl⟩
